import Mathlib

/-!
Verification of the MultiTodoApp launcher scripts.

This file gives a shallow embedding of the decision logic of
`start_app.py` (staleness inspection, dependency installation, the
production build phase, the startup monitor loop, cleanup, and the
port-3000 process killer) and of `run_command` from
`build_app_enhanced.py`, and proves or refutes the frozen claims about
them.  Modification times are modelled as natural numbers, filesystem
trees as finite trees of named files and directories, and external
commands by their observable results (exit code, stdout, stderr).
-/

namespace MultiTodo

/-- Whether `pat` occurs contiguously somewhere in `s`. -/
def containsSubAux (pat : List Char) : List Char → Bool
  | [] => pat.isEmpty
  | c :: rest => pat.isPrefixOf (c :: rest) || containsSubAux pat rest

/-- Substring test, Python `pat in s`. -/
def containsSub (s pat : String) : Bool := containsSubAux pat.data s.data

/-- Lowercasing, Python `s.lower()` (the keywords compared against are ASCII). -/
def lowerStr (s : String) : String := String.mk (s.data.map Char.toLower)

/-- Python `s.strip()`: drop leading and trailing whitespace. -/
def stripStr (s : String) : String :=
  String.mk (((s.data.dropWhile Char.isWhitespace).reverse.dropWhile Char.isWhitespace).reverse)

/-! ## Filesystem model and the staleness inspector -/

/-- The entry sequence of a directory: named files carrying a modification
time, and named subdirectories carrying their own entry sequence.  Each
constructor also carries the remaining sibling entries, so the type is a
plain (non-nested) inductive.  A whole source tree is represented by the
entry sequence of its root directory, whose own name `os.walk` never tests
against the ignore list. -/
inductive Fs where
  | nilFs
  | file (name : String) (mtime : Nat) (next : Fs)
  | dir (name : String) (entries : Fs) (next : Fs)
deriving DecidableEq

/-- Python `any(file.endswith(ext) for ext in extensions)`. -/
def fileMatches (exts : List String) (name : String) : Bool :=
  exts.any (fun e => e.data.isSuffixOf name.data)

/-- The directory names pruned by `_get_latest_mtime`
(`dirs[:] = [d for d in dirs if d not in ['node_modules', 'dist', '__pycache__', '.git']]`). -/
def ignoreDirs : List String := ["node_modules", "dist", "__pycache__", ".git"]

/-- The walk of `AppLauncher._get_latest_mtime`: files matching an
extension contribute their mtime, subdirectories whose name is in `ig` are
skipped (`dirs[:] = ...`), and the running maximum starts at 0, so the
result is 0 — not a distinguished `none` — when nothing matches. -/
def getLatestMtime (exts ig : List String) : Fs → Nat
  | .nilFs => 0
  | .file n m next =>
      max (if fileMatches exts n then m else 0) (getLatestMtime exts ig next)
  | .dir d es next =>
      max (if ig.contains d then 0 else getLatestMtime exts ig es)
        (getLatestMtime exts ig next)

/-- The mtimes of exactly the files the walk visits and matches, in walk order. -/
def watchedMtimes (exts ig : List String) : Fs → List Nat
  | .nilFs => []
  | .file n m next =>
      (if fileMatches exts n then [m] else []) ++ watchedMtimes exts ig next
  | .dir d es next =>
      (if ig.contains d then [] else watchedMtimes exts ig es) ++
        watchedMtimes exts ig next

/-- A file of a tree together with the chain of directory names above it
(below the root). -/
structure FoundFile where
  parents : List String
  name : String
  mtime : Nat
deriving DecidableEq

/-- Every file below a root, with its parent-directory chain. -/
def allFiles : Fs → List FoundFile
  | .nilFs => []
  | .file n m next => { parents := [], name := n, mtime := m } :: allFiles next
  | .dir d es next =>
      (allFiles es).map (fun f => { f with parents := d :: f.parents }) ++ allFiles next

/-- Modelled from the spec: the files whose name ends with one of the
extensions and that do not lie under any subdirectory whose name is in the
ignore set. -/
def specWatched (exts ig : List String) (t : Fs) : List Nat :=
  ((allFiles t).filter
      (fun f => fileMatches exts f.name && f.parents.all (fun d => !(ig.contains d)))).map
    (fun f => f.mtime)

/-- Modelled from the spec: `latest_mtime(root, extensions, ignore_dirs) ->
timestamp | none`, the maximum over the matching files, `none` when no
matching file exists. -/
def latestMtimeSpec (exts ig : List String) (t : Fs) : Option Nat :=
  match specWatched exts ig t with
  | [] => none
  | ms => some (ms.foldr max 0)

/-- Erase the contents of every ignored subdirectory (the part of the tree
the walk never visits). -/
def pruneIgnored (ig : List String) : Fs → Fs
  | .nilFs => .nilFs
  | .file n m next => .file n m (pruneIgnored ig next)
  | .dir d es next =>
      .dir d (if ig.contains d then .nilFs else pruneIgnored ig es) (pruneIgnored ig next)

/-- Extensions watched for the main-process target (`['.ts', '.js']`). -/
def mainExts : List String := [".ts", ".js"]

/-- Extensions watched for the renderer target
(`['.ts', '.tsx', '.js', '.jsx', '.css']`). -/
def rendererExts : List String := [".ts", ".tsx", ".js", ".jsx", ".css"]

/-- `AppLauncher._should_rebuild_main`: `artifact` is the mtime of
`dist/main/main.js` when that file exists.  Missing artifact forces a
rebuild; otherwise rebuild exactly when the latest source mtime is strictly
greater. -/
def shouldRebuildMain (artifact : Option Nat) (srcMain : Fs) : Bool :=
  match artifact with
  | none => true
  | some buildMtime => decide (buildMtime < getLatestMtime mainExts ignoreDirs srcMain)

/-- `AppLauncher._should_rebuild_renderer`: like the main target, but the
mtime of `webpack.renderer.config.js` (when that file exists) is folded into
the source maximum. -/
def shouldRebuildRenderer (artifact : Option Nat) (srcRenderer : Fs)
    (webpackCfg : Option Nat) : Bool :=
  match artifact with
  | none => true
  | some buildMtime =>
      let srcMtime := getLatestMtime rendererExts ignoreDirs srcRenderer
      let srcMtime :=
        match webpackCfg with
        | some w => max srcMtime w
        | none => srcMtime
      decide (buildMtime < srcMtime)

/-! ## The production build phase -/

/-- Result of one external command run with captured output. -/
structure CmdResult where
  exitCode : Int
  stdout : String
  stderr : String
deriving DecidableEq

/-- The structured content written to `build_error.log` on a renderer build
failure: a stderr block, a stdout block, and the return code. -/
structure ErrorLog where
  stderrText : String
  stdoutText : String
  exitCodeText : String
deriving DecidableEq

/-- The log content assembled by `build_and_start_production` for a failed
renderer build (empty streams are replaced by placeholder text). -/
def renderErrorLog (r : CmdResult) : ErrorLog :=
  { stderrText := if r.stderr = "" then "(无错误输出)" else r.stderr
    stdoutText := if r.stdout = "" then "(无标准输出)" else r.stdout
    exitCodeText := toString r.exitCode }

/-- Fixed log path, `os.path.join(project_root, 'build_error.log')`. -/
def buildErrorLogPath : String := "build_error.log"

/-- How the build phase ended. -/
inductive BuildStatus where
  | ok
  | mainFailed
  | rendererFailed
deriving DecidableEq

/-- Observable outcome of the build phase of `build_and_start_production`:
which commands ran, whether a log file was persisted (path and content), and
which target failed, if any. -/
structure BuildPhaseResult where
  status : BuildStatus
  mainInvoked : Bool
  rendererInvoked : Bool
  logWritten : Option (String × ErrorLog)
deriving DecidableEq

/-- The build phase of `AppLauncher.build_and_start_production`: run
`npm run build:main` when the main target is stale (on failure print stderr
and stop, writing no log); then run `npm run build:renderer` when the
renderer target is stale (on failure write `build_error.log` with stderr,
stdout and the return code, and stop). -/
def buildPhase (needMain needRenderer : Bool) (mainRes rendererRes : CmdResult) :
    BuildPhaseResult :=
  if needMain && !(mainRes.exitCode == 0) then
    { status := .mainFailed, mainInvoked := true, rendererInvoked := false,
      logWritten := none }
  else if needRenderer && !(rendererRes.exitCode == 0) then
    { status := .rendererFailed, mainInvoked := needMain, rendererInvoked := true,
      logWritten := some (buildErrorLogPath, renderErrorLog rendererRes) }
  else
    { status := .ok, mainInvoked := needMain, rendererInvoked := needRenderer,
      logWritten := none }

/-! ## The dependency installer -/

/-- Observable summary of an installer run: how many times the external
install command was invoked, how many backoff sleeps happened, and whether
the run succeeded. -/
structure InstallRun where
  attemptsMade : Nat
  sleeps : Nat
  success : Bool
deriving DecidableEq

/-- `AppLauncher._run_npm_install`: a single `npm install` invocation whose
exit code decides success.  There is no retry and no sleep.  `codes i` is
the exit code the external command would return on its `i`-th invocation. -/
def runNpmInstall (codes : Nat → Int) : InstallRun :=
  { attemptsMade := 1, sleeps := 0, success := codes 0 == 0 }

/-- `AppLauncher.install_dependencies`: when the `node_modules` directory
exists, return success at once without touching the external command
(`check_directory_exists` only tests existence, never contents); otherwise
run `_run_npm_install`. -/
def installDependencies (nodeModulesExists : Bool) (codes : Nat → Int) : InstallRun :=
  if nodeModulesExists then { attemptsMade := 0, sleeps := 0, success := true }
  else runNpmInstall codes

/-- Total external install invocations across `n` successive calls of
`install_dependencies` against an unchanged filesystem. -/
def installCallTotal (codes : Nat → Int) (nodeModulesExists : Bool) : Nat → Nat
  | 0 => 0
  | n + 1 =>
      (installDependencies nodeModulesExists codes).attemptsMade +
        installCallTotal codes nodeModulesExists n

/-- The loop of `run_command` from `build_app_enhanced.py`:
`for attempt in range(retry)`, sleeping 2 seconds before every attempt after
the first, returning success at the first zero exit code. -/
def runCommandLoop (codes : Nat → Int) (attempt sleeps : Nat) : Nat → InstallRun
  | 0 => { attemptsMade := attempt, sleeps := sleeps, success := false }
  | remaining + 1 =>
      let sleeps := if 0 < attempt then sleeps + 1 else sleeps
      if codes attempt == 0 then
        { attemptsMade := attempt + 1, sleeps := sleeps, success := true }
      else runCommandLoop codes (attempt + 1) sleeps remaining

/-- `run_command(cmd, description, retry)` from `build_app_enhanced.py`. -/
def runCommand (codes : Nat → Int) (retry : Nat) : InstallRun :=
  runCommandLoop codes 0 0 retry

/-- Exit codes 1, 1, 0 across successive attempts (the spec scenario). -/
def codes110 : Nat → Int := fun i => if i < 2 then 1 else 0

/-! ## The startup monitor loop -/

/-- One iteration of the monitor loop observes the elapsed time since start,
the result of `poll()`, and the line `readline()` produced (`none` models an
empty read / a read that raised). -/
structure Obs where
  elapsed : Nat
  polled : Option Int
  line : Option String
deriving DecidableEq

/-- How the production monitor loop ended. -/
inductive Outcome where
  | timedOut
  | exitedOk
  | exitedErr (code : Int)
  | streamEnded
deriving DecidableEq

/-- Final state of the monitor loop: its outcome, the `app_started` flag,
and the lines surfaced on the error channel. -/
structure MonitorResult where
  outcome : Outcome
  appStarted : Bool
  surfacedErrors : List String
deriving DecidableEq

/-- Readiness keywords of the production monitor
(`['ready', 'initialized', 'database', 'window created']`). -/
def readyKeywords : List String := ["ready", "initialized", "database", "window created"]

/-- Error keywords of both monitors (`['error', 'failed', 'cannot']`). -/
def errorKeywords : List String := ["error", "failed", "cannot"]

/-- Python `any(keyword in line.lower() for keyword in kws)`. -/
def lineHasKeyword (kws : List String) (line : String) : Bool :=
  kws.any (fun k => containsSub (lowerStr line) k)

/-- The production-mode error classifier (`build_and_start_production`):
an error-keyword line is surfaced only when it contains `error` and does not
contain `gpu`. -/
def prodLineError (line : String) : Bool :=
  lineHasKeyword errorKeywords line &&
    (containsSub (lowerStr line) ("error") && !(containsSub (lowerStr line) ("gpu")))

/-- The development-mode error classifier (`start_development_server`):
an error-keyword line is surfaced when it contains `error`; there is no
benign-substring exception. -/
def devLineError (line : String) : Bool :=
  lineHasKeyword errorKeywords line && containsSub (lowerStr line) ("error")

/-- The monitor loop of `build_and_start_production`: each iteration first
tests the 30-second timeout, then `poll()`, then classifies the line read:
a readiness keyword sets `app_started`, an error line is surfaced.  Neither
classification leaves the loop. -/
def monitorProduction (timeout : Nat) : List Obs → Bool → List String → MonitorResult
  | [], started, errs => { outcome := .streamEnded, appStarted := started, surfacedErrors := errs }
  | o :: rest, started, errs =>
      if timeout < o.elapsed then
        { outcome := .timedOut, appStarted := started, surfacedErrors := errs }
      else
        match o.polled with
        | some code =>
            if code == 0 then
              { outcome := .exitedOk, appStarted := started, surfacedErrors := errs }
            else
              { outcome := .exitedErr code, appStarted := started, surfacedErrors := errs }
        | none =>
            match o.line with
            | none => monitorProduction timeout rest started errs
            | some raw =>
                let line := stripStr raw
                let started := started || lineHasKeyword readyKeywords line
                let errs := if prodLineError line then errs ++ [line] else errs
                monitorProduction timeout rest started errs

/-- When the loop above times out: the first observation whose elapsed time
exceeds the timeout comes before any observation carrying an exit status
(readiness lines are irrelevant). -/
def timesOutSpec (timeout : Nat) : List Obs → Bool
  | [] => false
  | o :: rest =>
      if timeout < o.elapsed then true
      else if o.polled.isSome then false
      else timesOutSpec timeout rest

/-- A run that prints a readiness line early and is then still alive past
the 30-second deadline. -/
def obsReadyThenLate : List Obs :=
  [{ elapsed := 2, polled := none, line := some ("app ready") },
   { elapsed := 31, polled := none, line := none }]

/-! ## The coordinator run (staleness-gated builds) -/

/-- The launcher state read and written by one production run: the two
artifact mtimes (`none` = absent), the two source trees, the mtime of
`webpack.renderer.config.js` (`none` = absent), and the current clock. -/
structure ProjState where
  mainArtifact : Option Nat
  rendererArtifact : Option Nat
  mainSrc : Fs
  rendererSrc : Fs
  webpackCfg : Option Nat
  now : Nat

/-- Outcome of one coordinator run: the new state and how many external
build commands were invoked. -/
structure RunResult where
  state : ProjState
  buildsInvoked : Nat

/-- One successful run of the build phase: both verdicts are computed first,
then each stale target is rebuilt, a successful build writing its artifact
at the current clock time.  Sources are not touched. -/
def coordinatorRun (s : ProjState) : RunResult :=
  let nm := shouldRebuildMain s.mainArtifact s.mainSrc
  let nr := shouldRebuildRenderer s.rendererArtifact s.rendererSrc s.webpackCfg
  let s1 := if nm then { s with mainArtifact := some s.now } else s
  let s2 := if nr then { s1 with rendererArtifact := some s.now } else s1
  { state := s2, buildsInvoked := (if nm then 1 else 0) + (if nr then 1 else 0) }

/-! ## Cleanup -/

/-- Status of the owned child process at cleanup time: absent
(`dev_process is None`), already exited (`poll() is not None`), or live.
A live child is described by how long after `terminate()` it would exit
(`none` = it would not exit). -/
inductive ChildStatus where
  | absent
  | exited (code : Int)
  | live (gracefulExitTime : Option Nat)
deriving DecidableEq

/-- What `AppLauncher.cleanup` did: whether `terminate()` was sent, whether
the grace wait happened, and whether `kill()` was sent. -/
structure CleanupTrace where
  terminateSent : Bool
  waitedGrace : Bool
  killSent : Bool
deriving DecidableEq

/-- The grace period of `self.dev_process.wait(timeout=5)`. -/
def gracePeriod : Nat := 5

/-- `AppLauncher.cleanup`: a no-op unless a live child is owned; then
`terminate()`, `wait(timeout=5)`, and `kill()` only when the wait raised
`TimeoutExpired`. -/
def cleanup : ChildStatus → CleanupTrace
  | .absent => { terminateSent := false, waitedGrace := false, killSent := false }
  | .exited _ => { terminateSent := false, waitedGrace := false, killSent := false }
  | .live g =>
      match g with
      | some t =>
          if t ≤ gracePeriod then
            { terminateSent := true, waitedGrace := true, killSent := false }
          else
            { terminateSent := true, waitedGrace := true, killSent := true }
      | none => { terminateSent := true, waitedGrace := true, killSent := true }

/-! ## Side-effect traces of the port-3000 killer -/

/-- Observable side effects of the launcher paths around
`_kill_node_processes`. -/
inductive Eff where
  | lookupPort (port : Nat)
  | forceKillPid (pid : Nat) (method : String)
  | sleepHalfSec
  | npmInstallCmd
  | buildMainCmd
  | buildRendererCmd
  | launchElectronCmd
deriving DecidableEq

/-- `AppLauncher._kill_node_processes`: look up the process listening on
TCP port 3000 (`netstat -ano` on Windows, `lsof -ti:3000` elsewhere) and
force-kill it (`taskkill /F /PID` on Windows, `kill -9` elsewhere) with no
confirmation; a lookup or kill failure is swallowed by the bare `except`. -/
def killNodeEffects (isWin lookupFailed : Bool) (occupant : Option Nat) : List Eff :=
  if lookupFailed then [Eff.lookupPort 3000]
  else
    match occupant with
    | some pid =>
        [Eff.lookupPort 3000,
         Eff.forceKillPid pid (if isWin then "taskkill /F" else "kill -9"),
         Eff.sleepHalfSec]
    | none => [Eff.lookupPort 3000]

/-- Effects of `AppLauncher._run_npm_install`: the port-3000 cleanup, then
the external install command. -/
def runNpmInstallEffects (isWin lookupFailed : Bool) (occupant : Option Nat) : List Eff :=
  killNodeEffects isWin lookupFailed occupant ++ [Eff.npmInstallCmd]

/-- Effects of `AppLauncher.build_and_start_production` up to the launch:
the port-3000 cleanup, then each needed build command, then the launch. -/
def buildAndStartEffects (isWin lookupFailed : Bool) (occupant : Option Nat)
    (needMain needRenderer : Bool) : List Eff :=
  killNodeEffects isWin lookupFailed occupant ++
    (if needMain then [Eff.buildMainCmd] else []) ++
    (if needRenderer then [Eff.buildRendererCmd] else []) ++
    [Eff.launchElectronCmd]

/-! ## Concrete inputs used by counterexamples and witnesses -/

/-- A source tree holding no watched file. -/
def emptySrcTree : Fs := .file "readme.md" 7 .nilFs

/-- A tree whose only extra file lies inside `node_modules`. -/
def tIgnoredFull : Fs :=
  .file "a.ts" 5 (.dir "node_modules" (.file "evil.ts" 99 .nilFs) .nilFs)

/-- `tIgnoredFull` with the ignored directory emptied. -/
def tIgnoredEmpty : Fs :=
  .file "a.ts" 5 (.dir "node_modules" .nilFs .nilFs)

/-- A concrete project state: both artifacts absent, small source trees,
no webpack config, clock at 10. -/
def stateFirstRun : ProjState :=
  { mainArtifact := none
    rendererArtifact := none
    mainSrc := .file "main.ts" 5 .nilFs
    rendererSrc := .file "app.tsx" 7 .nilFs
    webpackCfg := none
    now := 10 }

/-! ## Helper lemmas -/

theorem foldr_max_append (l₁ l₂ : List Nat) :
    (l₁ ++ l₂).foldr max 0 = max (l₁.foldr max 0) (l₂.foldr max 0) := by
  induction l₁ with
  | nil => simp
  | cons x l ih => simp [ih, Nat.max_assoc]

theorem lt_foldr_max_iff (m : Nat) (l : List Nat) :
    m < l.foldr max 0 ↔ ∃ x ∈ l, m < x := by
  induction l with
  | nil => simp
  | cons a l ih => simp [lt_max_iff, ih]

theorem getLatestMtime_eq_foldr (exts ig : List String) (t : Fs) :
    getLatestMtime exts ig t = (watchedMtimes exts ig t).foldr max 0 := by
  induction t with
  | nilFs => rfl
  | file n m next ih =>
      by_cases h : fileMatches exts n = true <;>
        simp [getLatestMtime, watchedMtimes, h, ih]
  | dir d es next ih1 ih2 =>
      by_cases h : d ∈ ig
      · simp only [getLatestMtime, watchedMtimes]
        rw [if_pos (by simpa using h), if_pos (by simpa using h), ih2]
        simp
      · simp only [getLatestMtime, watchedMtimes]
        rw [if_neg (by simpa using h), if_neg (by simpa using h), ih1, ih2,
          foldr_max_append]

theorem filter_ignoredParent (exts ig : List String) (d : String)
    (h : d ∈ ig) (l : List FoundFile) :
    ((l.map (fun f => { f with parents := d :: f.parents })).filter
      (fun f => fileMatches exts f.name && f.parents.all (fun x => !(ig.contains x)))) = [] := by
  induction l with
  | nil => rfl
  | cons a l ih => simp [List.filter_cons, h, ih]

theorem filter_keptParent (exts ig : List String) (d : String)
    (h : d ∉ ig) (l : List FoundFile) :
    ((l.map (fun f => { f with parents := d :: f.parents })).filter
      (fun f => fileMatches exts f.name && f.parents.all (fun x => !(ig.contains x)))) =
      ((l.filter
          (fun f => fileMatches exts f.name && f.parents.all (fun x => !(ig.contains x)))).map
        (fun f => { f with parents := d :: f.parents })) := by
  induction l with
  | nil => rfl
  | cons a l ih =>
      by_cases hp : (fileMatches exts a.name && a.parents.all (fun x => !(ig.contains x))) = true <;>
        simp_all [List.filter_cons, h]

theorem watchedMtimes_eq_specWatched (exts ig : List String) (t : Fs) :
    watchedMtimes exts ig t = specWatched exts ig t := by
  induction t with
  | nilFs => rfl
  | file n m next ih =>
      by_cases h : fileMatches exts n = true <;>
        simp [watchedMtimes, specWatched, allFiles, List.filter_cons, h, ih]
  | dir d es next ih1 ih2 =>
      simp only [watchedMtimes, specWatched, allFiles, List.filter_append, List.map_append]
      by_cases h : d ∈ ig
      · rw [filter_ignoredParent exts ig d h, if_pos (by simpa using h)]
        simpa [specWatched] using ih2
      · rw [filter_keptParent exts ig d h, if_neg (by simpa using h)]
        simp [specWatched, ih1, ih2, List.map_map, Function.comp]

theorem getLatestMtime_pruneIgnored (exts ig : List String) (t : Fs) :
    getLatestMtime exts ig (pruneIgnored ig t) = getLatestMtime exts ig t := by
  induction t with
  | nilFs => rfl
  | file n m next ih => simp [pruneIgnored, getLatestMtime, ih]
  | dir d es next ih1 ih2 =>
      by_cases h : d ∈ ig <;>
        simp [pruneIgnored, getLatestMtime, h, ih1, ih2]

theorem shouldRebuildMain_of_le (n : Nat) (t : Fs)
    (h : getLatestMtime mainExts ignoreDirs t ≤ n) :
    shouldRebuildMain (some n) t = false := by
  simp only [shouldRebuildMain, decide_eq_false_iff_not, not_lt]
  exact h

theorem shouldRebuildRenderer_of_le (n : Nat) (t : Fs) (w : Option Nat)
    (h : getLatestMtime rendererExts ignoreDirs t ≤ n)
    (hw : ∀ x, w = some x → x ≤ n) :
    shouldRebuildRenderer (some n) t w = false := by
  cases w with
  | none =>
      simp only [shouldRebuildRenderer, decide_eq_false_iff_not, not_lt]
      exact h
  | some x =>
      have hx := hw x rfl
      simp only [shouldRebuildRenderer, decide_eq_false_iff_not, not_lt, max_le_iff]
      exact ⟨h, hx⟩

theorem runCommandLoop_allFail (codes : Nat → Int) :
    ∀ (remaining attempt sleeps : Nat), 0 < attempt →
      (∀ i, attempt ≤ i → i < attempt + remaining → codes i ≠ 0) →
      runCommandLoop codes attempt sleeps remaining =
        { attemptsMade := attempt + remaining, sleeps := sleeps + remaining,
          success := false } := by
  intro remaining
  induction remaining with
  | zero => intro a s _ _; simp [runCommandLoop]
  | succ r ih =>
      intro a s ha h
      have hc : (codes a == 0) = false := by
        simpa using h a le_rfl (by omega)
      have ht : 0 < a := ha
      rw [runCommandLoop, if_pos ht, hc]
      simp only [Bool.false_eq_true, if_false]
      rw [ih (a + 1) (s + 1) (by omega) (fun i h1 h2 => h i (by omega) (by omega))]
      simp [InstallRun.mk.injEq]
      omega

theorem monitor_error_channel_inert (timeout : Nat) (obs : List Obs) :
    ∀ (started : Bool) (e₁ e₂ : List String),
      (monitorProduction timeout obs started e₁).outcome =
          (monitorProduction timeout obs started e₂).outcome ∧
        (monitorProduction timeout obs started e₁).appStarted =
          (monitorProduction timeout obs started e₂).appStarted := by
  induction obs with
  | nil => intro s e₁ e₂; simp [monitorProduction]
  | cons o rest ih =>
      intro s e₁ e₂
      by_cases ht : timeout < o.elapsed
      · simp [monitorProduction, ht]
      · cases hp : o.polled with
        | some c =>
            by_cases hc : (c == 0) = true <;>
              simp [monitorProduction, ht, hp, hc]
        | none =>
            cases hl : o.line with
            | none =>
                simp only [monitorProduction, ht, if_false, hp, hl]
                exact ih s e₁ e₂
            | some raw =>
                simp only [monitorProduction, ht, if_false, hp, hl]
                exact ih _ _ _

/-! ## The claims -/

/-- Claim C1: for both build targets, the rebuild verdict is stale exactly
when the artifact is absent, or it is present and some watched source file
(for the renderer, including the webpack config file) has a modification
time strictly greater than the artifact's; in particular whenever every
watched mtime is less than or equal to the artifact's mtime — ties
included — the verdict is fresh. -/
theorem claim_C1_staleness (aM aR : Option Nat) (tM tR : Fs) (w : Option Nat) :
    (shouldRebuildMain aM tM = true ↔
      aM = none ∨ ∃ b, aM = some b ∧
        ∃ x ∈ watchedMtimes mainExts ignoreDirs tM, b < x) ∧
    (shouldRebuildRenderer aR tR w = true ↔
      aR = none ∨ ∃ b, aR = some b ∧
        ∃ x ∈ watchedMtimes rendererExts ignoreDirs tR ++ w.toList, b < x) := by
  constructor
  · cases aM with
    | none => simp [shouldRebuildMain]
    | some b =>
        simp [shouldRebuildMain, getLatestMtime_eq_foldr, lt_foldr_max_iff]
  · cases aR with
    | none => simp [shouldRebuildRenderer]
    | some b =>
        cases w with
        | none =>
            simp [shouldRebuildRenderer, getLatestMtime_eq_foldr, lt_foldr_max_iff]
        | some wv =>
            simp only [shouldRebuildRenderer, getLatestMtime_eq_foldr, decide_eq_true_eq,
              lt_max_iff, lt_foldr_max_iff, Option.toList_some, Option.some.injEq,
              reduceCtorEq, false_or, exists_eq_left']
            constructor
            · rintro (⟨x, hx, hbx⟩ | hbw)
              · exact ⟨x, List.mem_append_left _ hx, hbx⟩
              · exact ⟨wv, List.mem_append_right _ (List.mem_singleton.mpr rfl), hbw⟩
            · rintro ⟨x, hx, hbx⟩
              rcases List.mem_append.mp hx with hx | hx
              · exact Or.inl ⟨x, hx, hbx⟩
              · rw [List.mem_singleton.mp hx] at hbx
                exact Or.inr hbx

/-- Claim C2 counterexample: the main target's build command fails (exit 1,
stderr present) yet no failure log is persisted — only the renderer branch
writes `build_error.log`, so the claim is false for the main target. -/
theorem claim_C2_counterexample :
    (buildPhase true true { exitCode := 1, stdout := "", stderr := "type error" }
        { exitCode := 0, stdout := "", stderr := "" }).status = .mainFailed ∧
    (buildPhase true true { exitCode := 1, stdout := "", stderr := "type error" }
        { exitCode := 0, stdout := "", stderr := "" }).logWritten = none := by decide

/-- Claim C2, amended: a failing build command stops the run before any
later target; only a failing renderer build persists the structured log at
`build_error.log` (stderr block, stdout block, return code), while a failing
main build surfaces the failure naming the main target but persists no log
and names no log path. -/
theorem claim_C2_corrected (nm nr : Bool) (mr rr : CmdResult) :
    (nm = true → mr.exitCode ≠ 0 →
       buildPhase nm nr mr rr =
         { status := .mainFailed, mainInvoked := true, rendererInvoked := false,
           logWritten := none }) ∧
    ((nm = false ∨ mr.exitCode = 0) → nr = true → rr.exitCode ≠ 0 →
       buildPhase nm nr mr rr =
         { status := .rendererFailed, mainInvoked := nm, rendererInvoked := true,
           logWritten := some (buildErrorLogPath, renderErrorLog rr) }) := by
  constructor
  · intro h1 h2
    subst h1
    have hc : (mr.exitCode == 0) = false := by simpa using h2
    simp [buildPhase, hc]
  · intro h1 h2 h3
    subst h2
    have hc : (rr.exitCode == 0) = false := by simpa using h3
    rcases h1 with h1 | h1
    · subst h1
      simp [buildPhase, hc]
    · have hm : (mr.exitCode == 0) = true := by simpa using h1
      simp [buildPhase, hm, hc]

/-- Claim C2 witness: the spec scenario — renderer exits 2 with stderr
`syntax error` — produces a renderer-named failure and a persisted log
carrying that stderr and return code 2. -/
theorem claim_C2_corrected_witness :
    buildPhase true true { exitCode := 0, stdout := "ok", stderr := "" }
        { exitCode := 2, stdout := "", stderr := "syntax error" } =
      { status := .rendererFailed, mainInvoked := true, rendererInvoked := true,
        logWritten := some (buildErrorLogPath,
          renderErrorLog { exitCode := 2, stdout := "", stderr := "syntax error" }) } :=
  (claim_C2_corrected true true { exitCode := 0, stdout := "ok", stderr := "" }
      { exitCode := 2, stdout := "", stderr := "syntax error" }).2
    (Or.inr rfl) rfl (by decide)

/-- Claim C3 counterexample: with the cache directory absent and attempt
exit codes 1, 1, 0, the launcher's installer makes a single attempt, never
sleeps, and fails — not the claimed success after two backoff sleeps. -/
theorem claim_C3_counterexample :
    installDependencies false codes110 =
      { attemptsMade := 1, sleeps := 0, success := false } ∧
    ¬ ((installDependencies false codes110).success = true ∧
       (installDependencies false codes110).sleeps = 2) := by decide

/-- Claim C3, amended: the launcher's installer (`_run_npm_install`) makes
exactly one attempt with no retry and no sleep, failing immediately on a
non-zero exit; the described retry loop lives only in `run_command` of
`build_app_enhanced.py`, which sleeps its fixed 2-second backoff before
every attempt after the first — there, exit codes 1, 1, 0 with three
attempts yield success after exactly two sleeps, and all-failing attempts
exhaust the budget with `retry - 1` sleeps. -/
theorem claim_C3_corrected :
    (∀ codes : Nat → Int, installDependencies false codes =
       { attemptsMade := 1, sleeps := 0, success := codes 0 == 0 }) ∧
    runCommand codes110 3 = { attemptsMade := 3, sleeps := 2, success := true } ∧
    (∀ (codes : Nat → Int) (retry : Nat), (∀ i, i < retry → codes i ≠ 0) →
       runCommand codes retry =
         { attemptsMade := retry, sleeps := retry - 1, success := false }) := by
  refine ⟨fun codes => rfl, by decide, ?_⟩
  intro codes retry h
  cases retry with
  | zero => simp [runCommand, runCommandLoop]
  | succ r =>
      have hc : (codes 0 == 0) = false := by simpa using h 0 (by omega)
      rw [runCommand, runCommandLoop]
      simp only [Nat.lt_irrefl, if_false, hc, Bool.false_eq_true]
      rw [runCommandLoop_allFail codes r 1 0 (by omega)
        (fun i h1 h2 => h i (by omega))]
      simp [InstallRun.mk.injEq]
      omega

/-- Claim C3 witness: three always-failing attempts exhaust the retry
budget of `run_command`, returning failure after two sleeps. -/
theorem claim_C3_corrected_witness :
    runCommand (fun _ => (1 : Int)) 3 =
      { attemptsMade := 3, sleeps := 2, success := false } :=
  claim_C3_corrected.2.2 (fun _ => (1 : Int)) 3 (fun i _ => by exact one_ne_zero)

/-- Claim C4 counterexample: a readiness line arrives at 2 seconds, well
before the 30-second deadline, the process stays alive, and the monitor
still takes the timeout branch. -/
theorem claim_C4_counterexample :
    (monitorProduction 30 obsReadyThenLate false []).appStarted = true ∧
    (monitorProduction 30 obsReadyThenLate false []).outcome = .timedOut := by decide

/-- Claim C4, amended: the monitor reports a startup timeout exactly when
the first observation whose elapsed time exceeds the deadline comes before
any observation carrying an exit status; an earlier readiness line neither
prevents nor delays the timeout branch, and the process's aliveness is only
consulted after the elapsed-time test. -/
theorem claim_C4_corrected (timeout : Nat) (obs : List Obs) :
    ∀ (started : Bool) (errs : List String),
      ((monitorProduction timeout obs started errs).outcome = .timedOut ↔
        timesOutSpec timeout obs = true) := by
  induction obs with
  | nil => intro s e; simp [monitorProduction, timesOutSpec]
  | cons o rest ih =>
      intro s e
      by_cases ht : timeout < o.elapsed
      · simp [monitorProduction, timesOutSpec, ht]
      · cases hp : o.polled with
        | some c =>
            by_cases hc : (c == 0) = true <;>
              simp [monitorProduction, timesOutSpec, ht, hp, hc]
        | none =>
            cases hl : o.line with
            | none =>
                simp only [monitorProduction, timesOutSpec, ht, if_false, hp, hl,
                  Option.isSome_none, Bool.false_eq_true]
                exact ih s e
            | some raw =>
                simp only [monitorProduction, timesOutSpec, ht, if_false, hp, hl,
                  Option.isSome_none, Bool.false_eq_true]
                exact ih _ _

/-- Claim C6: whenever `node_modules` exists, `install_dependencies`
succeeds at once with zero invocations of the external install command —
its contents are never inspected (the embedding reads only existence) — and
any number of successive calls still totals zero invocations. -/
theorem claim_C6_cache_short_circuit :
    ∀ (codes : Nat → Int) (n : Nat),
      installDependencies true codes =
        { attemptsMade := 0, sleeps := 0, success := true } ∧
      installCallTotal codes true n = 0 := by
  intro codes n
  refine ⟨rfl, ?_⟩
  induction n with
  | zero => rfl
  | succ k ih => simpa [installCallTotal, installDependencies] using ih

/-- Claim C7: after a successful coordinator run, with no filesystem change
in between and a clock not behind the source files, a second run performs
zero external build invocations. -/
theorem claim_C7_second_run_skips (s : ProjState)
    (hm : getLatestMtime mainExts ignoreDirs s.mainSrc ≤ s.now)
    (hr : getLatestMtime rendererExts ignoreDirs s.rendererSrc ≤ s.now)
    (hw : ∀ x, s.webpackCfg = some x → x ≤ s.now) :
    (coordinatorRun (coordinatorRun s).state).buildsInvoked = 0 := by
  have h1 : shouldRebuildMain (some s.now) s.mainSrc = false :=
    shouldRebuildMain_of_le _ _ hm
  have h2 : shouldRebuildRenderer (some s.now) s.rendererSrc s.webpackCfg = false :=
    shouldRebuildRenderer_of_le _ _ _ hr hw
  cases hnm : shouldRebuildMain s.mainArtifact s.mainSrc <;>
    cases hnr : shouldRebuildRenderer s.rendererArtifact s.rendererSrc s.webpackCfg <;>
      simp [coordinatorRun, hnm, hnr, h1, h2]

/-- Claim C7 witness: from a state with both artifacts absent, the first
run rebuilds and the second run builds nothing. -/
theorem claim_C7_second_run_skips_witness :
    (coordinatorRun (coordinatorRun stateFirstRun).state).buildsInvoked = 0 :=
  claim_C7_second_run_skips stateFirstRun (by decide) (by decide)
    (fun x hx => by simp [stateFirstRun] at hx)

/-- Claim C8 counterexample: in development mode the GPU allow-list does
not exist — a line containing both `error` and `gpu` is surfaced — and in
both modes a line containing only the error keyword `failed` is not
surfaced at all. -/
theorem claim_C8_counterexample :
    containsSub (lowerStr ("GPU process error")) ("error") = true ∧
    containsSub (lowerStr ("GPU process error")) ("gpu") = true ∧
    devLineError ("GPU process error") = true ∧
    lineHasKeyword errorKeywords ("build failed") = true ∧
    prodLineError ("build failed") = false ∧
    devLineError ("build failed") = false := by decide

/-- Claim C8, amended: a line is surfaced on the error channel exactly when
it contains `error` — lines carrying only `failed` or `cannot` are not
surfaced — and the benign-GPU suppression applies only to the production
classifier, not the development one; error classification never feeds back
into the supervision outcome or the readiness flag. -/
theorem claim_C8_corrected :
    (∀ line, prodLineError line =
       (containsSub (lowerStr line) ("error") && !(containsSub (lowerStr line) ("gpu")))) ∧
    (∀ line, devLineError line = containsSub (lowerStr line) ("error")) ∧
    (∀ (timeout : Nat) (obs : List Obs) (started : Bool) (e₁ e₂ : List String),
       (monitorProduction timeout obs started e₁).outcome =
           (monitorProduction timeout obs started e₂).outcome ∧
         (monitorProduction timeout obs started e₁).appStarted =
           (monitorProduction timeout obs started e₂).appStarted) := by
  refine ⟨?_, ?_, fun timeout obs s e₁ e₂ => monitor_error_channel_inert timeout obs s e₁ e₂⟩
  · intro line
    simp only [prodLineError, lineHasKeyword, errorKeywords, List.any_cons, List.any_nil,
      Bool.or_false]
    cases containsSub (lowerStr line) ("error") <;>
      cases containsSub (lowerStr line) ("failed") <;>
        cases containsSub (lowerStr line) ("cannot") <;>
          cases containsSub (lowerStr line) ("gpu") <;> rfl
  · intro line
    simp only [devLineError, lineHasKeyword, errorKeywords, List.any_cons, List.any_nil,
      Bool.or_false]
    cases containsSub (lowerStr line) ("error") <;>
      cases containsSub (lowerStr line) ("failed") <;>
        cases containsSub (lowerStr line) ("cannot") <;> rfl

/-- Claim C9: the cleanup path is a no-op without a live owned child;
for a live child it always sends `terminate()` and waits the 5-second
grace period, and it sends `kill()` exactly when the child has not exited
within that period — the kill is reached only after terminate and the
grace wait. -/
theorem claim_C9_graceful_shutdown (st : ChildStatus) :
    ((cleanup st).killSent = true ↔
      st = .live none ∨ ∃ t, st = .live (some t) ∧ gracePeriod < t) ∧
    ((cleanup st).killSent = true →
      (cleanup st).terminateSent = true ∧ (cleanup st).waitedGrace = true) ∧
    (st = .absent →
      cleanup st = { terminateSent := false, waitedGrace := false, killSent := false }) ∧
    (∀ c, st = .exited c →
      cleanup st = { terminateSent := false, waitedGrace := false, killSent := false }) := by
  cases st with
  | absent => simp [cleanup]
  | exited c => simp [cleanup]
  | live g =>
      cases g with
      | none => simp [cleanup]
      | some t =>
          by_cases h : t ≤ gracePeriod <;> (simp [cleanup, h]; try omega)

/-- Claim C9 witness: a live child that would need 7 seconds to exit is
killed after the grace period. -/
theorem claim_C9_graceful_shutdown_witness :
    (cleanup (.live (some 7))).killSent = true :=
  (claim_C9_graceful_shutdown (.live (some 7))).1.mpr
    (Or.inr ⟨7, rfl, by decide⟩)

/-- Claim C10: before the dependency install and again at the start of
every production build/launch, the launcher runs the port-3000 cleanup,
which looks up any process listening on TCP port 3000 and force-kills it —
`taskkill /F` on Windows, `kill -9` elsewhere — with no confirmation step,
and a failed lookup is swallowed, the run continuing normally. -/
theorem claim_C10_port3000_kill (isWin lookupFailed : Bool) (occ : Option Nat)
    (nm nr : Bool) :
    (runNpmInstallEffects isWin lookupFailed occ =
       killNodeEffects isWin lookupFailed occ ++ [Eff.npmInstallCmd]) ∧
    (buildAndStartEffects isWin lookupFailed occ nm nr =
       killNodeEffects isWin lookupFailed occ ++
         ((if nm then [Eff.buildMainCmd] else []) ++
          ((if nr then [Eff.buildRendererCmd] else []) ++ [Eff.launchElectronCmd]))) ∧
    (∀ pid, occ = some pid → lookupFailed = false →
       Eff.forceKillPid pid (if isWin then "taskkill /F" else "kill -9") ∈
         killNodeEffects isWin lookupFailed occ) ∧
    (lookupFailed = true →
       killNodeEffects isWin lookupFailed occ = [Eff.lookupPort 3000]) := by
  refine ⟨rfl, by simp [buildAndStartEffects], ?_, ?_⟩
  · intro pid hocc hlf
    subst hocc; subst hlf
    simp [killNodeEffects]
  · intro hlf
    subst hlf
    rfl

/-- Claim C10 witness: with port 3000 occupied by pid 4242 on a Unix
system, the cleanup trace contains a `kill -9` of that pid. -/
theorem claim_C10_port3000_kill_witness :
    Eff.forceKillPid 4242 ("kill -9") ∈ killNodeEffects false false (some 4242) :=
  (claim_C10_port3000_kill false false (some 4242) true true).2.2.1 4242 rfl rfl

/-- Claim C5 counterexample: on a tree with no watched file the code
returns the sentinel 0 — not the `none` the claim requires — and 0 cannot
be told apart from a genuine mtime of 0. -/
theorem claim_C5_counterexample :
    latestMtimeSpec mainExts ignoreDirs emptySrcTree = none ∧
    getLatestMtime mainExts ignoreDirs emptySrcTree = 0 ∧
    getLatestMtime mainExts ignoreDirs (.file "a.ts" 0 .nilFs) = 0 := by decide

/-- Claim C5, amended: `_get_latest_mtime` returns the maximum over exactly
the files whose name ends with one of the extensions and that lie under no
ignored subdirectory, with sentinel 0 — not `none` — when no such file
exists; consequently any change confined to ignored subdirectories (trees
agreeing after pruning ignored contents) leaves the result and both
staleness verdicts unchanged. -/
theorem claim_C5_corrected :
    (∀ exts ig t, getLatestMtime exts ig t = (specWatched exts ig t).foldr max 0 ∧
       getLatestMtime exts ig t = (latestMtimeSpec exts ig t).getD 0) ∧
    (∀ exts ig t₁ t₂, pruneIgnored ig t₁ = pruneIgnored ig t₂ →
       getLatestMtime exts ig t₁ = getLatestMtime exts ig t₂) ∧
    (∀ a w t₁ t₂, pruneIgnored ignoreDirs t₁ = pruneIgnored ignoreDirs t₂ →
       shouldRebuildMain a t₁ = shouldRebuildMain a t₂ ∧
       shouldRebuildRenderer a t₁ w = shouldRebuildRenderer a t₂ w) := by
  have key : ∀ exts ig t₁ t₂, pruneIgnored ig t₁ = pruneIgnored ig t₂ →
      getLatestMtime exts ig t₁ = getLatestMtime exts ig t₂ := by
    intro exts ig t₁ t₂ h
    rw [← getLatestMtime_pruneIgnored exts ig t₁, h, getLatestMtime_pruneIgnored]
  refine ⟨?_, key, ?_⟩
  · intro exts ig t
    have hf : getLatestMtime exts ig t = (specWatched exts ig t).foldr max 0 := by
      rw [getLatestMtime_eq_foldr, watchedMtimes_eq_specWatched]
    refine ⟨hf, ?_⟩
    rw [hf, latestMtimeSpec]
    cases hs : specWatched exts ig t with
    | nil => simp
    | cons a l => simp
  · intro a w t₁ t₂ h
    constructor
    · cases a with
      | none => rfl
      | some b => simp [shouldRebuildMain, key mainExts ignoreDirs t₁ t₂ h]
    · cases a with
      | none => rfl
      | some b => simp [shouldRebuildRenderer, key rendererExts ignoreDirs t₁ t₂ h]

/-- Claim C5 witness: filling or emptying `node_modules` leaves the latest
mtime and the main verdict unchanged. -/
theorem claim_C5_corrected_witness :
    getLatestMtime mainExts ignoreDirs tIgnoredFull =
        getLatestMtime mainExts ignoreDirs tIgnoredEmpty ∧
      shouldRebuildMain (some 5) tIgnoredFull = shouldRebuildMain (some 5) tIgnoredEmpty :=
  ⟨claim_C5_corrected.2.1 mainExts ignoreDirs tIgnoredFull tIgnoredEmpty rfl,
   (claim_C5_corrected.2.2 (some 5) none tIgnoredFull tIgnoredEmpty rfl).1⟩

end MultiTodo
